import Mathlib

/-!
Verification of the polar_llama batch-inference dispatcher against its
natural-language specification.

The pure Python glue (`src/polar_llama/types.py`,
`src/polar_llama/taxonomy_refinement.py`, the signature of
`src/polar_llama/__init__.py:inference_async`) is embedded directly.  The
native dispatch core (concurrency scheduler, request planner, usage
aggregator, result assembler) is not part of the visible sources; where a
claim depends on it, the relevant component is modelled from the spec, and
each such definition's doc comment says so.
-/

namespace PolarLlama

/-! ## Embedding of `src/polar_llama/types.py` -/

/-- `CacheStrategy` enum from `types.py` (five string-valued members). -/
inductive CacheStrategy where
  | NONE
  | AUTO
  | SYSTEM_PROMPT
  | SCHEMA
  | FULL_PREF
deriving DecidableEq

/-- The `.value` string of each `CacheStrategy` member, as in `types.py`. -/
def CacheStrategy.value : CacheStrategy → String
  | .NONE => "none"
  | .AUTO => "auto"
  | .SYSTEM_PROMPT => "system_prompt"
  | .SCHEMA => "schema"
  | .FULL_PREF => "full_prefix"

/-- `CacheConfig` dataclass from `types.py`. -/
structure CacheConfig where
  strategy : CacheStrategy := .AUTO
  min_tokens : Int := 1024
  ttl : String := "5m"
  cache_key : Option String := none
  report_metrics : Bool := true
deriving DecidableEq

/-- Values that can appear in the kwargs dict handed to the native FFI. -/
inductive KwargVal where
  | str (s : String)
  | int (i : Int)
  | bool (b : Bool)
  | pynone
deriving DecidableEq

/-- `Option String` to kwarg value: `None` or the string itself. -/
def optStr : Option String → KwargVal
  | some s => .str s
  | none => .pynone

/-- `CacheConfig.to_kwargs` from `types.py`: the kwargs dict forwarded to the
native core.  Note it does not mention `report_metrics`. -/
def CacheConfig.to_kwargs (c : CacheConfig) : List (String × KwargVal) :=
  [("cache", .bool true),
   ("cache_strategy", .str c.strategy.value),
   ("cache_ttl", .str c.ttl),
   ("cache_key", optStr c.cache_key),
   ("cache_min_tokens", .int c.min_tokens)]

/-- `CacheMetrics` dataclass from `types.py`.  The Python fields are plain
`int`s with no validation, so they are embedded as `Int`. -/
structure CacheMetrics where
  total_requests : Int
  cache_hits : Int
  cache_misses : Int
  cache_writes : Int
  input_tokens : Int
  cached_tokens : Int
  cache_write_tokens : Int
  cache_read_tokens : Int
deriving DecidableEq

/-- `CacheMetrics.cache_hit_rate` property from `types.py`: `0.0` when
`total_requests == 0`, else `cache_hits / total_requests`. -/
def CacheMetrics.cache_hit_rate (m : CacheMetrics) : ℚ :=
  if m.total_requests = 0 then 0
  else (m.cache_hits : ℚ) / (m.total_requests : ℚ)

/-- `CacheMetrics.estimated_savings` from `types.py`:
`cache_read_tokens * input_price_per_million * 0.9 / 1_000_000`. -/
def CacheMetrics.estimated_savings (m : CacheMetrics)
    (input_price_per_million : ℚ) : ℚ :=
  (m.cache_read_tokens : ℚ) * input_price_per_million * (9 / 10) / 1000000

/-! ## Embedding of the `inference_async` signature
(`src/polar_llama/__init__.py`, lines 51-56) -/

/-- The keyword parameters declared by `inference_async` in
`src/polar_llama/__init__.py` (`def inference_async(expr, *, provider=None,
model=None)`): keyword-only, with no `**kwargs`. -/
def inference_async_params : List String := ["provider", "model"]

/-- Python call semantics for a function with keyword-only parameters and no
`**kwargs`: the call is accepted iff every passed keyword is declared
(otherwise Python raises `TypeError: unexpected keyword argument`). -/
def acceptsKeywords (declared passed : List String) : Bool :=
  passed.all fun k => declared.contains k

/-! ## Data model of the dispatch core (spec section 3)

The native core is absent from the visible sources, so `Outcome`,
`UsageStats` and the output projection are modelled from the spec. -/

/-- Modelled from the spec: `UsageStats` — per-request token statistics,
all non-negative integers (hence `Nat` fields). -/
structure UsageStats where
  prompt_tokens : Nat
  completion_tokens : Nat
  total_tokens : Nat
  cache_write_tokens : Nat
  cache_read_tokens : Nat
deriving DecidableEq

/-- Modelled from the spec: `UsageStats` values are built from the provider's
reported prompt/completion counts with
`total_tokens = prompt_tokens + completion_tokens` by construction. -/
def mkUsageStats (prompt completion cacheW cacheR : Nat) : UsageStats :=
  ⟨prompt, completion, prompt + completion, cacheW, cacheR⟩

/-- Modelled from the spec: `Outcome` — per-Request result, either
`Success{content, usage}` or `Error{kind, message, retryable}`. -/
inductive Outcome where
  | success (content : String) (usage : UsageStats)
  | error (kind : String) (message : String) (retryable : Bool)
deriving DecidableEq

/-- Modelled from the spec: an output cell — plain text for a success, or an
error-marker value with preserved kind/message for a row-level error. -/
inductive OutValue where
  | text (s : String)
  | errorMarker (kind : String) (message : String)
deriving DecidableEq

/-- Modelled from the spec: Result Assembler's projection of one `Outcome`
into the output shape (plain-text configuration). -/
def projectOutcome : Outcome → OutValue
  | .success c _ => .text c
  | .error k msg _ => .errorMarker k msg

/-! ## Model of the Concurrency Scheduler and Result Assembler
(spec sections 4.3, 4.6, 5)

The per-row provider call is a function `send : Nat → Outcome` (the uniform
adapter capability applied to row `i`'s request); a completion order is a
permutation of the row indices, and the scheduler collects `(row, outcome)`
pairs in completion order. -/

/-- Modelled from the spec: the scheduler dispatches every row and collects
one `(row index, Outcome)` pair per request, in completion order. -/
def dispatchAll (send : Nat → Outcome) (order : List Nat) :
    List (Nat × Outcome) :=
  order.map fun i => (i, send i)

/-- Modelled from the spec: the Result Assembler places outcome `i` at output
position `i`, producing output of length `n` in input row order. -/
def assemble (n : Nat) (completed : List (Nat × Outcome)) : List OutValue :=
  (List.range n).map fun i =>
    match completed.find? (fun p => p.1 == i) with
    | some p => projectOutcome p.2
    | none => .errorMarker "missing" "no outcome produced"

/-- Modelled from the spec: one batch call over `n` rows — dispatch in the
given completion order, then assemble in row order. -/
def batchOut (send : Nat → Outcome) (n : Nat) (order : List Nat) :
    List OutValue :=
  assemble n (dispatchAll send order)

/-! ## Model of the Request Planner (spec sections 4.1, 7) -/

/-- Modelled from the spec: an input row — its prompt/messages plus an
optional per-row provider/model override. -/
structure Row where
  messages : String
  provider : Option String := none
  model : Option String := none
deriving DecidableEq

/-- Modelled from the spec: a fully resolved, dispatch-ready request. -/
structure Request where
  provider : String
  model : String
  messages : String
deriving DecidableEq

/-- Modelled from the spec: batch-fatal errors raised to the caller. -/
inductive BatchError where
  | configError (message : String)
deriving DecidableEq

/-- Modelled from the spec: a per-row setting overrides the batch-level
default. -/
def resolveSetting (rowLevel batchLevel : Option String) : Option String :=
  match rowLevel with
  | some v => some v
  | none => batchLevel

/-- Modelled from the spec: the Request Planner resolves each row's provider
and model; if neither a per-row nor a batch-level value is present, planning
fails with a configuration error. -/
def planRequests (batchProvider batchModel : Option String)
    (rows : List Row) : Except BatchError (List Request) :=
  rows.mapM fun r =>
    match resolveSetting r.provider batchProvider,
          resolveSetting r.model batchModel with
    | some p, some m => .ok ⟨p, m, r.messages⟩
    | _, _ => .error (.configError "missing provider/model")

/-- Modelled from the spec: the full batch call — plan first, dispatch only a
successful plan.  The first component is the list of requests that reach the
network; a planning failure dispatches nothing and surfaces the fatal error
with no partial results. -/
def runBatch (batchProvider batchModel : Option String) (rows : List Row)
    (send : Nat → Outcome) (order : List Nat) :
    List Request × Except BatchError (List OutValue) :=
  match planRequests batchProvider batchModel rows with
  | .error e => ([], .error e)
  | .ok reqs => (reqs, .ok (batchOut send reqs.length order))

/-! ## Model of the Usage Aggregator (spec sections 4.5, 3) -/

/-- Modelled from the spec: one provider-adapter reply — `none` models a
row-level failure, `some (content, prompt, completion, cacheWrite,
cacheRead)` carries the provider-reported token counts. -/
def outcomeOfResponse : Option (String × Nat × Nat × Nat × Nat) → Outcome
  | some (c, p, comp, cw, cr) => .success c (mkUsageStats p comp cw cr)
  | none => .error "provider_error" "request failed" false

/-- The batch's outcomes for a list of adapter replies, in row order. -/
def outcomesOfResponses
    (rs : List (Option (String × Nat × Nat × Nat × Nat))) : List Outcome :=
  rs.map outcomeOfResponse

/-- The usage statistics of the Success outcomes, in batch order. -/
def successUsages (os : List Outcome) : List UsageStats :=
  os.filterMap fun o =>
    match o with
    | .success _ u => some u
    | .error _ _ _ => none

/-- Modelled from the spec: the Usage Aggregator consumes one Outcome,
adding its usage into the running metrics and classifying actual cache usage
from the provider-reported cache token counts. -/
def addOutcome (m : CacheMetrics) (o : Outcome) : CacheMetrics :=
  match o with
  | .success _ u =>
      { m with
        total_requests := m.total_requests + 1
        cache_hits :=
          m.cache_hits + (if 0 < u.cache_read_tokens then 1 else 0)
        cache_misses :=
          m.cache_misses + (if 0 < u.cache_read_tokens then 0 else 1)
        cache_writes :=
          m.cache_writes + (if 0 < u.cache_write_tokens then 1 else 0)
        input_tokens := m.input_tokens + u.prompt_tokens
        cached_tokens := m.cached_tokens + u.cache_read_tokens
        cache_write_tokens := m.cache_write_tokens + u.cache_write_tokens
        cache_read_tokens := m.cache_read_tokens + u.cache_read_tokens }
  | .error _ _ _ => { m with total_requests := m.total_requests + 1 }

/-- The all-zero metrics accumulator a batch starts from. -/
def emptyMetrics : CacheMetrics := ⟨0, 0, 0, 0, 0, 0, 0, 0⟩

/-- Modelled from the spec: batch-level aggregation folds every outcome into
the metrics accumulator, one at a time as outcomes complete. -/
def aggregateMetrics (os : List Outcome) : CacheMetrics :=
  os.foldl addOutcome emptyMetrics

/-- Modelled from the spec: dispatch builds each row's provider request from
the row and the FFI kwargs produced by `to_kwargs`; a cache directive
influences dispatch only through those kwargs. -/
def requestsSent (c : CacheConfig) (rows : List Row) :
    List (Row × List (String × KwargVal)) :=
  rows.map fun r => (r, c.to_kwargs)

/-- Modelled from the spec: `report_metrics=false` suppresses BatchMetrics
population; otherwise the aggregated metrics are returned. -/
def reportedMetrics (c : CacheConfig) (os : List Outcome) :
    Option CacheMetrics :=
  if c.report_metrics then some (aggregateMetrics os) else none

/-! ## Embedding of `refine_taxonomy`
(`src/polar_llama/taxonomy_refinement.py`) -/

/-- One entry of `error_feedback`: a dict whose `category`/`feedback`
entries may be absent (`item.get(...)` returns `None` then). -/
structure FeedbackItem where
  category : Option String
  feedback : Option String
deriving DecidableEq

/-- Python truthiness of an optional string: `None` and `""` are falsy. -/
def truthyStr : Option String → Bool
  | none => false
  | some s => !(s == "")

/-- Python `str.strip()`: drop whitespace from both ends of the string
(structural character-list model). -/
def pyStrip (s : String) : String :=
  String.mk
    (((s.data.dropWhile Char.isWhitespace).reverse.dropWhile
        Char.isWhitespace).reverse)

/-- The guard `if category and feedback and feedback.strip():` from the
aggregation loop of `refine_taxonomy`. -/
def hasUsableFeedback (it : FeedbackItem) : Bool :=
  truthyStr it.category && truthyStr it.feedback &&
    !(pyStrip (it.feedback.getD "") == "")

/-- `d.get(k)` on an association list modelling a Python dict. -/
def dictGet {α : Type} (d : List (String × α)) (k : String) : Option α :=
  match d with
  | [] => none
  | (k', v) :: rest => if k' == k then some v else dictGet rest k

/-- Python dict assignment on an association list: replace the value under
an existing key in place, else append the binding (insertion order kept). -/
def dictSet {α : Type} (d : List (String × α)) (k : String) (v : α) :
    List (String × α) :=
  match d with
  | [] => [(k, v)]
  | (k', v') :: rest =>
      if k' == k then (k', v) :: rest else (k', v') :: dictSet rest k v

/-- `category_feedback[category].append(feedback)` (creating the key's list
on first use), as in the aggregation loop of `refine_taxonomy`. -/
def appendFeedback (acc : List (String × List String)) (cat fb : String) :
    List (String × List String) :=
  match dictGet acc cat with
  | some fbs => dictSet acc cat (fbs ++ [fb])
  | none => acc ++ [(cat, [fb])]

/-- The feedback-aggregation loop of `refine_taxonomy`: group the non-blank
feedback strings by (truthy) category, preserving insertion order. -/
def aggregateFeedback (items : List FeedbackItem) :
    List (String × List String) :=
  items.foldl
    (fun acc it =>
      if hasUsableFeedback it then
        appendFeedback acc (it.category.getD "") (it.feedback.getD "")
      else acc)
    []

/-- One taxonomy entry, the Python dict `\x7b'description': ...,
'values': ...\x7d`; a missing `description` key is `none` and a missing
`values` key is the empty dict. -/
structure TaxInfo where
  description : Option String
  values : List (String × String)
deriving DecidableEq

/-- A taxonomy dictionary: field name to taxonomy entry. -/
abbrev Taxonomy := List (String × TaxInfo)

/-- Key-ordered insertion, used to model `sorted(category_feedback.items())`
(keys are unique, so sorting by key matches Python's tuple sort). -/
def insertByKey (p : String × List String) :
    List (String × List String) → List (String × List String)
  | [] => [p]
  | q :: rest =>
      if p.1 ≤ q.1 then p :: q :: rest else q :: insertByKey p rest

/-- `sorted(category_feedback.items())` from `refine_taxonomy`. -/
def sortByKey (l : List (String × List String)) :
    List (String × List String) :=
  l.foldr insertByKey []

/-- A rendering of `json.dumps` on a string-to-string dict; it only feeds
prompt text, never control flow. -/
def jsonDumpPairs (d : List (String × String)) : String :=
  "\x7b" ++
    String.intercalate ", "
      (d.map fun p => "\x22" ++ p.1 ++ "\x22: \x22" ++ p.2 ++ "\x22") ++
  "\x7d"

/-- One block of `feedback_summary` in `refine_taxonomy`: the category, its
original definition (`"No definition"` when absent), the misprediction
count, and the bulleted feedback lines. -/
def feedbackBlock (original_definitions : List (String × String))
    (category : String) (feedbacks : List String) : String :=
  let original_def :=
    (dictGet original_definitions category).getD "No definition"
  "\nCategory: " ++ category ++
    "\nOriginal Definition: " ++ original_def ++
    "\nConfusion Points (" ++ toString feedbacks.length ++
    " mispredictions):\n" ++
    String.intercalate "\n" (feedbacks.map fun fb => "  - " ++ fb) ++ "\n"

/-- The refinement prompt assembled by `refine_taxonomy` before it calls the
LLM: header, taxonomy field and description, the per-category feedback
blocks sorted by category, all original definitions as JSON, and the task
instructions asking for a JSON-only answer. -/
def refinementPrompt (error_feedback : List FeedbackItem)
    (original_taxonomy : Taxonomy) (taxonomy_field : String) : String :=
  let taxonomy_info :=
    (dictGet original_taxonomy taxonomy_field).getD ⟨none, []⟩
  let original_definitions := taxonomy_info.values
  let field_description := taxonomy_info.description.getD taxonomy_field
  let category_feedback := aggregateFeedback error_feedback
  let feedback_summary :=
    String.join ((sortByKey category_feedback).map
      fun p => feedbackBlock original_definitions p.1 p.2)
  "You are refining taxonomy category definitions based on " ++
    "classification errors.\n\n" ++
    "TAXONOMY FIELD: " ++ taxonomy_field ++ "\n" ++
    "FIELD DESCRIPTION: " ++ field_description ++ "\n\n" ++
    "CATEGORIES WITH MISPREDICTIONS:\n" ++ feedback_summary ++ "\n\n" ++
    "ALL ORIGINAL DEFINITIONS:\n" ++
    jsonDumpPairs original_definitions ++ "\n\n" ++
    "TASK: Generate improved definitions that address the confusion " ++
    "points while:\n1. Maintaining accuracy and clarity\n" ++
    "2. Distinguishing clearly from other categories\n" ++
    "3. Being concise but comprehensive\n" ++
    "4. Using specific, actionable language\n\n" ++
    "Return ONLY a valid JSON object with this exact structure:\n" ++
    "\x7b\n  \x22category_name\x22: \x22improved definition text\x22,\n" ++
    "  \x22another_category\x22: \x22improved definition text\x22,\n" ++
    "  ...\n\x7d\n\n" ++
    "Include ALL categories from the original taxonomy, not just the " ++
    "ones with errors. For categories without errors, you may keep or " ++
    "slightly improve the original definition.\n\n" ++
    "IMPORTANT: Return ONLY the JSON object, no other text."

/-- The markdown-fence stripping in `refine_taxonomy`: when the response
starts with a fence, keep the text between the first fence pair, drop a
leading `json` tag, and trim surrounding whitespace. -/
def stripMarkdown (response_text : String) : String :=
  if response_text.startsWith "```" then
    let t := (response_text.splitOn "```").getD 1 ""
    let t := if t.startsWith "json" then t.drop 4 else t
    pyStrip t
  else response_text

/-- `refine_taxonomy` from `taxonomy_refinement.py`.  The LLM round trip and
the JSON parse are the two operations that can raise in the source's `try`
block; they enter the model as functions returning `Option`, where `none`
models a raised exception (which the source catches, answering with the
original taxonomy). -/
def refine_taxonomy (llm : String → Option String)
    (parseJson : String → Option (List (String × String)))
    (error_feedback : List FeedbackItem) (original_taxonomy : Taxonomy)
    (taxonomy_field : String) : Taxonomy :=
  let taxonomy_info :=
    (dictGet original_taxonomy taxonomy_field).getD ⟨none, []⟩
  let field_description := taxonomy_info.description.getD taxonomy_field
  let category_feedback := aggregateFeedback error_feedback
  if category_feedback.isEmpty then original_taxonomy
  else
    match llm (refinementPrompt error_feedback original_taxonomy
        taxonomy_field) with
    | none => original_taxonomy
    | some response_text =>
      match parseJson (stripMarkdown response_text) with
      | none => original_taxonomy
      | some refined_definitions =>
          dictSet original_taxonomy taxonomy_field
            ⟨some field_description, refined_definitions⟩

end PolarLlama

namespace PolarLlama

/-! ## Theorems for claims C5, C6, C7 -/

/-- C5: for every `CacheMetrics` value, `cache_hit_rate` equals
`cache_hits / total_requests`, and equals `0` when `total_requests` is `0`. -/
theorem cache_hit_rate_spec (m : CacheMetrics) :
    (m.total_requests = 0 → m.cache_hit_rate = 0) ∧
    (m.total_requests ≠ 0 →
      m.cache_hit_rate = (m.cache_hits : ℚ) / (m.total_requests : ℚ)) := by
  constructor
  · intro h
    simp [CacheMetrics.cache_hit_rate, h]
  · intro h
    simp [CacheMetrics.cache_hit_rate, h]

/-- Witness for C5 at concrete metrics values. -/
theorem cache_hit_rate_spec_witness :
    (CacheMetrics.mk 0 0 0 0 0 0 0 0).cache_hit_rate = 0 ∧
    (CacheMetrics.mk 4 3 1 1 0 0 0 0).cache_hit_rate =
      ((3 : Int) : ℚ) / ((4 : Int) : ℚ) :=
  ⟨(cache_hit_rate_spec (CacheMetrics.mk 0 0 0 0 0 0 0 0)).1 rfl,
   (cache_hit_rate_spec (CacheMetrics.mk 4 3 1 1 0 0 0 0)).2 (by decide)⟩

/-- C6 counterexample: `CacheMetrics` carries out no validation, so the value
with `total_requests = 1` and `cache_hits = 2` is constructible, and its
`cache_hit_rate` is `2`, violating `cache_hit_rate ≤ 1`. -/
theorem cache_hit_rate_bound_counterexample :
    (CacheMetrics.mk 1 2 0 0 0 0 0 0).cache_hit_rate = 2 ∧
    ¬ (CacheMetrics.mk 1 2 0 0 0 0 0 0).cache_hit_rate ≤ 1 := by
  constructor
  · norm_num [CacheMetrics.cache_hit_rate]
  · norm_num [CacheMetrics.cache_hit_rate]

/-- C6 (amended): for every `CacheMetrics` value whose counters satisfy
`0 ≤ cache_hits ≤ total_requests`, `0 ≤ cache_hit_rate ≤ 1` holds, and
`cache_hit_rate = 0` when `total_requests = 0`. -/
theorem cache_hit_rate_bounds (m : CacheMetrics)
    (h0 : 0 ≤ m.cache_hits) (h1 : m.cache_hits ≤ m.total_requests) :
    0 ≤ m.cache_hit_rate ∧ m.cache_hit_rate ≤ 1 ∧
    (m.total_requests = 0 → m.cache_hit_rate = 0) := by
  unfold CacheMetrics.cache_hit_rate
  by_cases hz : m.total_requests = 0
  · simp [hz]
  · have htpos : (0 : Int) < m.total_requests :=
      lt_of_le_of_ne (le_trans h0 h1) (Ne.symm hz)
    have htq : (0 : ℚ) < (m.total_requests : ℚ) := by exact_mod_cast htpos
    refine ⟨?_, ?_, ?_⟩
    · simp only [hz, if_false]
      exact div_nonneg (by exact_mod_cast h0) (le_of_lt htq)
    · simp only [hz, if_false]
      rw [div_le_one htq]
      exact_mod_cast h1
    · intro h
      exact absurd h hz

/-- Witness for the amended C6 at a concrete metrics value. -/
theorem cache_hit_rate_bounds_witness :
    0 ≤ (CacheMetrics.mk 5 2 3 1 0 0 0 0).cache_hit_rate ∧
    (CacheMetrics.mk 5 2 3 1 0 0 0 0).cache_hit_rate ≤ 1 ∧
    ((CacheMetrics.mk 5 2 3 1 0 0 0 0).total_requests = 0 →
      (CacheMetrics.mk 5 2 3 1 0 0 0 0).cache_hit_rate = 0) :=
  cache_hit_rate_bounds (CacheMetrics.mk 5 2 3 1 0 0 0 0)
    (by decide) (by decide)

/-- C7: `estimated_savings` equals
`cache_read_tokens × price × 0.9 / 1e6`, a pure function of the metrics value
and the caller-supplied price. -/
theorem estimated_savings_spec (m : CacheMetrics) (price : ℚ) :
    m.estimated_savings price =
      (m.cache_read_tokens : ℚ) * price * (0.9 : ℚ) / (1e6 : ℚ) := by
  unfold CacheMetrics.estimated_savings
  norm_num

/-! ## Theorems for claims C1, C2 (scheduler/assembler model) -/

/-- Whatever the completion order, the scheduler's completion log holds
`(i, send i)` as its first (indeed only) entry for row `i`. -/
theorem find_dispatchAll (send : Nat → Outcome) (order : List Nat) (i : Nat)
    (hi : i ∈ order) :
    (dispatchAll send order).find? (fun p => p.1 == i) = some (i, send i) := by
  induction order with
  | nil => cases hi
  | cons j rest ih =>
    show ((j, send j) :: dispatchAll send rest).find? (fun p => p.1 == i)
        = some (i, send i)
    by_cases hji : j = i
    · subst hji
      rw [List.find?_cons_of_pos _ (by simp)]
    · rw [List.find?_cons_of_neg _ (by simpa using hji)]
      have hmem : i ∈ rest := by
        rcases List.mem_cons.mp hi with h | h
        · exact absurd h.symm hji
        · exact h
      exact ih hmem

/-- Row `i` of the assembled output is the projection of row `i`'s own
outcome, for any completion order that is a permutation of the rows. -/
theorem batchOut_getD (send : Nat → Outcome) {n : Nat} {order : List Nat}
    (hperm : order.Perm (List.range n)) {i : Nat} (hi : i < n)
    (d : OutValue) :
    (batchOut send n order).getD i d = projectOutcome (send i) := by
  have hmem : i ∈ order := hperm.mem_iff.mpr (List.mem_range.mpr hi)
  have hfind := find_dispatchAll send order i hmem
  have hlen : (batchOut send n order).length = n := by
    simp [batchOut, assemble]
  rw [List.getD_eq_getElem _ _ (by rw [hlen]; exact hi)]
  simp only [batchOut, assemble, List.getElem_map, List.getElem_range]
  rw [hfind]

/-- C1: for every batch of `n` rows and every completion order of the per-row
provider calls (any permutation of the row indices), the batch output has
length exactly `n` and output row `i` is row `i`'s own result. -/
theorem batch_order_preserved (send : Nat → Outcome) (n : Nat)
    (order : List Nat) (hperm : order.Perm (List.range n)) :
    (batchOut send n order).length = n ∧
    ∀ i, i < n →
      (batchOut send n order).getD i (.errorMarker "" "") =
        projectOutcome (send i) :=
  ⟨by simp [batchOut, assemble],
   fun _ hi => batchOut_getD send hperm hi _⟩

/-- Concrete per-row provider behaviour used by the witnesses. -/
def demoSend : Nat → Outcome :=
  fun i => .success (toString i) (mkUsageStats (10 + i) 5 0 0)

/-- Witness for C1: a 3-row batch completing in the order `[2, 0, 1]`. -/
theorem batch_order_preserved_witness :
    ([2, 0, 1] : List Nat).Perm (List.range 3) ∧
    (batchOut demoSend 3 [2, 0, 1]).length = 3 ∧
    (batchOut demoSend 3 [2, 0, 1]).getD 1 (.errorMarker "" "") =
      projectOutcome (demoSend 1) :=
  ⟨by decide,
   (batch_order_preserved demoSend 3 [2, 0, 1] (by decide)).1,
   (batch_order_preserved demoSend 3 [2, 0, 1] (by decide)).2 1 (by decide)⟩

/-- C2: a provider failure on row `k` changes only row `k`'s output: the
batch still returns `n` outcomes, every other row's output is what it would
have been without the failure, and row `k` holds an error marker preserving
the failure's kind and message.  (The batch call is a total function of the
outcomes, so a single row-level error never raises out of the batch.) -/
theorem failure_isolation (send : Nat → Outcome) (n k : Nat) (hk : k < n)
    (kind msg : String) (retryable : Bool) (order : List Nat)
    (hperm : order.Perm (List.range n)) :
    (batchOut (fun i => if i = k then .error kind msg retryable else send i)
        n order).length = n ∧
    (∀ i, i < n → i ≠ k →
      (batchOut (fun i => if i = k then .error kind msg retryable else send i)
          n order).getD i (.errorMarker "" "") =
        (batchOut send n order).getD i (.errorMarker "" "")) ∧
    (batchOut (fun i => if i = k then .error kind msg retryable else send i)
        n order).getD k (.errorMarker "" "") = .errorMarker kind msg := by
  refine ⟨by simp [batchOut, assemble], fun i hi hik => ?_, ?_⟩
  · rw [batchOut_getD _ hperm hi, batchOut_getD send hperm hi]
    simp [hik]
  · rw [batchOut_getD _ hperm hk]
    simp [projectOutcome]

/-- Witness for C2: 3 rows, failure injected on row 1, completion order
`[2, 0, 1]`. -/
theorem failure_isolation_witness :
    (batchOut (fun i => if i = 1 then .error "timeout" "deadline" false
        else demoSend i) 3 [2, 0, 1]).length = 3 ∧
    (batchOut (fun i => if i = 1 then .error "timeout" "deadline" false
        else demoSend i) 3 [2, 0, 1]).getD 0 (.errorMarker "" "") =
      (batchOut demoSend 3 [2, 0, 1]).getD 0 (.errorMarker "" "") ∧
    (batchOut (fun i => if i = 1 then .error "timeout" "deadline" false
        else demoSend i) 3 [2, 0, 1]).getD 1 (.errorMarker "" "") =
      .errorMarker "timeout" "deadline" :=
  ⟨(failure_isolation demoSend 3 1 (by decide) "timeout" "deadline" false
      [2, 0, 1] (by decide)).1,
   (failure_isolation demoSend 3 1 (by decide) "timeout" "deadline" false
      [2, 0, 1] (by decide)).2.1 0 (by decide) (by decide),
   (failure_isolation demoSend 3 1 (by decide) "timeout" "deadline" false
      [2, 0, 1] (by decide)).2.2⟩

/-! ## Theorem for claim C4 (entry-point signature) -/

/-- C4: the `inference_async` entry point in `src/polar_llama/__init__.py`
declares only the keyword parameters `provider` and `model` and no
`**kwargs`, so the `track_usage=True` call made by the repository's own
examples is rejected (Python raises `TypeError`) instead of being accepted
with a default of false. -/
theorem inference_async_rejects_track_usage :
    acceptsKeywords inference_async_params
      ["provider", "model", "track_usage"] = false := by
  decide

/-! ## Theorem for claim C3 (missing provider/model is batch-fatal) -/

/-- C3: when neither a batch-level nor a per-row provider/model is supplied,
a (non-empty) batch call fails with a configuration error: the error is
batch-fatal (a failed `Except`, not a per-row error marker), no request is
dispatched to the network, and no partial results are produced. -/
theorem missing_config_is_batch_fatal (rows : List Row) (hne : rows ≠ [])
    (hrow : ∀ r ∈ rows, r.provider = none ∧ r.model = none)
    (send : Nat → Outcome) (order : List Nat) :
    runBatch none none rows send order =
      ([], .error (.configError "missing provider/model")) := by
  cases rows with
  | nil => exact absurd rfl hne
  | cons r rest =>
    have h := hrow r (List.mem_cons_self r rest)
    unfold runBatch planRequests
    rw [List.mapM_cons]
    simp [resolveSetting, h.1, h.2, Bind.bind, Except.bind]

/-- Witness for C3: a one-row batch with no provider or model anywhere. -/
theorem missing_config_is_batch_fatal_witness :
    runBatch none none [{ messages := "hello" }] demoSend [0] =
      ([], .error (.configError "missing provider/model")) :=
  missing_config_is_batch_fatal [{ messages := "hello" }] (by decide)
    (by decide) demoSend [0]

/-! ## Theorems for claims C8, C9 (usage aggregation, metrics frame) -/

/-- Folding outcomes into the accumulator adds exactly the Success outcomes'
prompt tokens to `input_tokens`. -/
theorem foldl_addOutcome_input_tokens (os : List Outcome)
    (m : CacheMetrics) :
    (os.foldl addOutcome m).input_tokens =
      m.input_tokens +
        ((successUsages os).map fun u => (u.prompt_tokens : Int)).sum := by
  induction os generalizing m with
  | nil => simp [successUsages]
  | cons o rest ih =>
    cases o with
    | success c u =>
      rw [List.foldl_cons, ih]
      simp [successUsages, addOutcome]
      ring
    | error k msg r =>
      rw [List.foldl_cons, ih]
      simp [successUsages, addOutcome]

/-- C8: every Success outcome's usage satisfies
`total_tokens = prompt_tokens + completion_tokens` (fields are `Nat`, hence
non-negative), and the aggregated `input_tokens` equals the sum of
`prompt_tokens` over the batch's Success outcomes. -/
theorem usage_stats_arithmetic
    (rs : List (Option (String × Nat × Nat × Nat × Nat))) :
    (∀ o ∈ outcomesOfResponses rs, ∀ c u, o = Outcome.success c u →
        u.total_tokens = u.prompt_tokens + u.completion_tokens) ∧
    (aggregateMetrics (outcomesOfResponses rs)).input_tokens =
      ((successUsages (outcomesOfResponses rs)).map
          fun u => (u.prompt_tokens : Int)).sum := by
  constructor
  · intro o ho c u he
    rcases List.mem_map.mp ho with ⟨r, _, rfl⟩
    cases r with
    | none => simp [outcomeOfResponse] at he
    | some t =>
      obtain ⟨c', p, comp, cw, cr⟩ := t
      rw [show outcomeOfResponse (some (c', p, comp, cw, cr)) =
            .success c' (mkUsageStats p comp cw cr) from rfl] at he
      cases he
      rfl
  · rw [aggregateMetrics, foldl_addOutcome_input_tokens]
    simp [emptyMetrics]

/-- Concrete adapter replies used by the C8 witness: one success reporting
3 prompt / 4 completion tokens with 2 cache-read tokens, and one failure. -/
def demoResponses : List (Option (String × Nat × Nat × Nat × Nat)) :=
  [some ("a", 3, 4, 0, 2), none]

/-- Witness for C8 at the concrete replies `demoResponses`. -/
theorem usage_stats_arithmetic_witness :
    (mkUsageStats 3 4 0 2).total_tokens =
      (mkUsageStats 3 4 0 2).prompt_tokens +
        (mkUsageStats 3 4 0 2).completion_tokens ∧
    (aggregateMetrics (outcomesOfResponses demoResponses)).input_tokens =
      ((successUsages (outcomesOfResponses demoResponses)).map
          fun u => (u.prompt_tokens : Int)).sum :=
  ⟨(usage_stats_arithmetic demoResponses).1
      (Outcome.success "a" (mkUsageStats 3 4 0 2)) (by decide)
      "a" (mkUsageStats 3 4 0 2) rfl,
   (usage_stats_arithmetic demoResponses).2⟩

/-- C9: flipping `report_metrics` to false changes neither the FFI kwargs
produced by `to_kwargs` nor any dispatched request (same rows, same cache
annotations), and only suppresses the reported batch metrics. -/
theorem report_metrics_frame (c : CacheConfig) (rows : List Row)
    (os : List Outcome) :
    ({ c with report_metrics := false } : CacheConfig).to_kwargs =
      ({ c with report_metrics := true } : CacheConfig).to_kwargs ∧
    requestsSent { c with report_metrics := false } rows =
      requestsSent { c with report_metrics := true } rows ∧
    reportedMetrics { c with report_metrics := false } os = none :=
  ⟨rfl, rfl, rfl⟩

/-! ## Theorem for claim C10 (`refine_taxonomy` failure atomicity) -/

/-- When no feedback item passes the usability guard, the aggregation loop
leaves any accumulator untouched. -/
theorem foldl_no_usable_feedback (items : List FeedbackItem)
    (h : ∀ it ∈ items, hasUsableFeedback it = false)
    (acc : List (String × List String)) :
    items.foldl
      (fun acc it =>
        if hasUsableFeedback it then
          appendFeedback acc (it.category.getD "") (it.feedback.getD "")
        else acc)
      acc = acc := by
  induction items generalizing acc with
  | nil => rfl
  | cons it rest ih =>
    rw [List.foldl_cons]
    have hit := h it (List.mem_cons_self it rest)
    rw [if_neg (by simp [hit])]
    exact ih (fun x hx => h x (List.mem_cons_of_mem it hx)) acc

/-- C10: `refine_taxonomy` is atomic on failure — it returns the original
taxonomy unchanged when no feedback item has both a truthy category and
non-blank feedback text, when the LLM request raises, and when parsing the
refined definitions raises. -/
theorem refine_taxonomy_atomic (llm : String → Option String)
    (parseJson : String → Option (List (String × String)))
    (error_feedback : List FeedbackItem) (original_taxonomy : Taxonomy)
    (taxonomy_field : String) :
    ((∀ it ∈ error_feedback, hasUsableFeedback it = false) →
      refine_taxonomy llm parseJson error_feedback original_taxonomy
        taxonomy_field = original_taxonomy) ∧
    (llm (refinementPrompt error_feedback original_taxonomy taxonomy_field)
        = none →
      refine_taxonomy llm parseJson error_feedback original_taxonomy
        taxonomy_field = original_taxonomy) ∧
    (∀ r, llm (refinementPrompt error_feedback original_taxonomy
          taxonomy_field) = some r →
      parseJson (stripMarkdown r) = none →
      refine_taxonomy llm parseJson error_feedback original_taxonomy
        taxonomy_field = original_taxonomy) := by
  refine ⟨fun hnone => ?_, fun hllm => ?_, fun r hllm hparse => ?_⟩
  · have hagg : aggregateFeedback error_feedback = [] :=
      foldl_no_usable_feedback error_feedback hnone []
    simp [refine_taxonomy, hagg]
  · by_cases hemp : (aggregateFeedback error_feedback).isEmpty
    · simp [refine_taxonomy, hemp]
    · simp [refine_taxonomy, hemp, hllm]
  · by_cases hemp : (aggregateFeedback error_feedback).isEmpty
    · simp [refine_taxonomy, hemp]
    · simp [refine_taxonomy, hemp, hllm, hparse]

/-- Concrete taxonomy used by the C10 witness. -/
def demoTaxonomy : Taxonomy :=
  [("sentiment",
    ⟨some "overall tone", [("pos", "positive"), ("neg", "negative")]⟩)]

/-- Witness for C10: blank-only feedback, a failing LLM call, and an
unparsable LLM answer each leave `demoTaxonomy` unchanged. -/
theorem refine_taxonomy_atomic_witness :
    refine_taxonomy (fun _ => some "ok") (fun _ => some [("pos", "p")])
        [⟨some "pos", some "  "⟩, ⟨none, some "x"⟩] demoTaxonomy
        "sentiment" = demoTaxonomy ∧
    refine_taxonomy (fun _ => none) (fun _ => some [("pos", "p")])
        [⟨some "pos", some "unclear"⟩] demoTaxonomy "sentiment" =
      demoTaxonomy ∧
    refine_taxonomy (fun _ => some "not json") (fun _ => none)
        [⟨some "pos", some "unclear"⟩] demoTaxonomy "sentiment" =
      demoTaxonomy :=
  ⟨(refine_taxonomy_atomic (fun _ => some "ok") (fun _ => some [("pos", "p")])
      [⟨some "pos", some "  "⟩, ⟨none, some "x"⟩] demoTaxonomy
      "sentiment").1 (by decide),
   (refine_taxonomy_atomic (fun _ => none) (fun _ => some [("pos", "p")])
      [⟨some "pos", some "unclear"⟩] demoTaxonomy "sentiment").2.1 rfl,
   (refine_taxonomy_atomic (fun _ => some "not json") (fun _ => none)
      [⟨some "pos", some "unclear"⟩] demoTaxonomy "sentiment").2.2
      "not json" rfl rfl⟩

end PolarLlama
